import Mathlib

/-!
Shallow embedding of `src/app.js` (the `ArcInit` bridge of arc-electron):
the bootstrap / initialization chain, the command router, the remote-call
responder, the request-action router and the theme-preview handler, together
with theorems settling the specification claims about them.
-/

namespace ArcInit

/-! ## Initialization chain (`_stateInfoHandler` → `initApp` → `_createApp`)

The chain suspends at three asynchronous points: the components import
(`_importHref`), the application definition import (`Polymer.importHref`)
and the theme load (`themeManager.loadTheme`).  We model one in-flight
chain per bootstrap delivery as a stage pointer, and the whole renderer as
a state holding the `created` flag, the number of `arc-electron` elements
appended to `document.body`, and the messages sent on the `fatal-error`
channel.  The environment (the event loop) chooses the order in which
pending asynchronous operations settle, and whether each resolves or
rejects; a rejection carries the reason produced by the failing resource
load. -/

/-- Stage of one bootstrap-triggered initialization chain.
`idle`: the bootstrap event has not been delivered yet.
`importing`: `_importHref(initConfig.importFile)` is pending.
`polymerLoading`: `Polymer.importHref('src/arc-electron.html', ...)` is pending.
`themeLoading`: `themeManager.loadTheme(initConfig.themeFile)` is pending
(entered either right after the shell is appended, or directly from entry
when `_createApp` resolved immediately because `created` was already set).
`finished` / `failed`: the chain settled. -/
inductive ChainStage where
  | idle
  | importing
  | polymerLoading
  | themeLoading
  | finished
  | failed
deriving DecidableEq, Repr

/-- Renderer-process state observed by the claims: the `created` flag
(`this.created`), the number of shell elements appended to the document,
the messages sent over the `fatal-error` channel (in order), and the stage
of each of the two bootstrap chains under consideration (chain `false` for
the first delivery, chain `true` for the second). -/
structure SysState where
  created : Bool
  domShells : Nat
  fatalMsgs : List String
  chainA : ChainStage
  chainB : ChainStage
deriving DecidableEq, Repr

/-- State after the constructor ran: `this.created = false`, nothing
appended, nothing reported, no bootstrap delivered yet. -/
def initSys : SysState :=
  { created := false, domShells := 0, fatalMsgs := [], chainA := ChainStage.idle
  , chainB := ChainStage.idle }

/-- Stage of chain `i`. -/
def getChain (s : SysState) (i : Bool) : ChainStage :=
  if i then s.chainB else s.chainA

/-- Replace the stage of chain `i`. -/
def setChain (s : SysState) (i : Bool) (c : ChainStage) : SysState :=
  if i then { s with chainB := c } else { s with chainA := c }

/-- Events the environment can schedule: delivery of the `window-state-info`
bootstrap event starting chain `i`, or settling of chain `i`'s currently
pending asynchronous operation, either successfully or with a rejection
whose reason message is `msg`. -/
inductive Ev where
  | deliver (i : Bool)
  | settleOk (i : Bool)
  | settleErr (i : Bool) (msg : String)
deriving DecidableEq, Repr

/-- Delivery of the bootstrap event for chain `i`: `_stateInfoHandler` runs
`initApp`, which constructs the workspace manager and then calls
`_createApp()` synchronously.  `_createApp` checks `this.created` at entry
(line 133): if set it returns `Promise.resolve()` and the chain proceeds
straight to the theme load; otherwise it starts the components import.
A chain that has already started is unaffected (each delivery starts its
own chain; we give each delivery its own slot). -/
def deliverEv (s : SysState) (i : Bool) : SysState :=
  match getChain s i with
  | ChainStage.idle =>
      if s.created then setChain s i ChainStage.themeLoading
      else setChain s i ChainStage.importing
  | _ => s

/-- Successful settlement of chain `i`'s pending operation.  When the
components import resolves, the application definition import starts.
When the application definition import resolves, the final `.then` runs:
it creates the `arc-electron` element, appends it to `document.body` and
sets `this.created = true` — with no further check of the flag (lines
151-158 of `_createApp`) — and the theme load starts.  When the theme load
resolves, `initApp`'s promise resolves. -/
def settleOkEv (s : SysState) (i : Bool) : SysState :=
  match getChain s i with
  | ChainStage.importing => setChain s i ChainStage.polymerLoading
  | ChainStage.polymerLoading =>
      setChain { s with domShells := s.domShells + 1, created := true } i
        ChainStage.themeLoading
  | ChainStage.themeLoading => setChain s i ChainStage.finished
  | _ => s

/-- Rejection of chain `i`'s pending operation with reason `msg`.  A failed
components import is replaced by `Error('Unable to load components import
file.')` (the `.catch` at lines 138-140); a failed application definition
load rejects with `Error('Unable to load ARC app')` (line 147), the
original reason being ignored; a failed theme load propagates its own
reason.  In every case the rejection reaches the single `.catch` at the
top of `initApp` (line 115), which calls `reportFatalError`, sending the
message once over the `fatal-error` channel. -/
def settleErrEv (s : SysState) (i : Bool) (msg : String) : SysState :=
  match getChain s i with
  | ChainStage.importing =>
      setChain
        { s with fatalMsgs := s.fatalMsgs ++ ["Unable to load components import file."] }
        i ChainStage.failed
  | ChainStage.polymerLoading =>
      setChain { s with fatalMsgs := s.fatalMsgs ++ ["Unable to load ARC app"] } i
        ChainStage.failed
  | ChainStage.themeLoading =>
      setChain { s with fatalMsgs := s.fatalMsgs ++ [msg] } i ChainStage.failed
  | _ => s

/-- One scheduler step. -/
def stepEv (s : SysState) : Ev → SysState
  | Ev.deliver i => deliverEv s i
  | Ev.settleOk i => settleOkEv s i
  | Ev.settleErr i msg => settleErrEv s i msg

/-- Run a schedule of events from a state. -/
def run (s : SysState) (evs : List Ev) : SysState :=
  evs.foldl stepEv s

/-! ## Bootstrap payload handling (`_stateInfoHandler`, lines 85-99)

The payload `info` is an untyped object; a field that is absent reads as
`undefined`, which we model with `Option`.  The handler substitutes `{}`
for an absent or null payload (`info = info || {}`), then normalizes the
workspace index: `if (!initConfig.workspaceIndex) initConfig.workspaceIndex = 0`
— the JavaScript test is falsiness, so both an absent index and an index
equal to `0` take the branch.  It then copies the (normalized) index to
`this.workspaceIndex`, stores the config on `this.initConfig` and on the
process-wide `window.ArcConfig.initConfig`, and calls `this.initApp()`. -/

/-- The fields of the bootstrap payload (`AppOptions`) that `app.js` reads;
`none` models an absent (`undefined`) field. -/
structure InitConfig where
  workspaceIndex : Option Int
  workspacePath : Option String
  themeFile : Option String
  importFile : Option String
  appComponents : Option String
deriving DecidableEq, Repr

/-- The empty object `{}` substituted for an absent payload. -/
def emptyConfig : InitConfig :=
  { workspaceIndex := none, workspacePath := none, themeFile := none
  , importFile := none, appComponents := none }

/-- JavaScript falsiness of `initConfig.workspaceIndex`: `undefined` is
falsy, and so is the number `0`. -/
def idxFalsy : Option Int → Bool
  | none => true
  | some n => n == 0

/-- Result of one `_stateInfoHandler` invocation: `this.workspaceIndex`,
the config stored on `this.initConfig`, the config stored process-wide on
`window.ArcConfig.initConfig`, and whether `this.initApp()` was invoked. -/
structure StateInfoResult where
  workspaceIndex : Option Int
  initConfig : InitConfig
  arcConfigInitConfig : InitConfig
  initAppTriggered : Bool
deriving DecidableEq, Repr

/-- `_stateInfoHandler(e, info)` (lines 85-99).  `info` is `none` when the
message carried no payload (or a null one). -/
def stateInfoHandler (info : Option InitConfig) : StateInfoResult :=
  let c0 := info.getD emptyConfig
  let c :=
    if idxFalsy c0.workspaceIndex then { c0 with workspaceIndex := some 0 } else c0
  { workspaceIndex := c.workspaceIndex
  , initConfig := c
  , arcConfigInitConfig := c
  , initAppTriggered := true }

/-! ## Application shell, command router and remote-call responder -/

/-- Operations `app.js` can invoke on the `arc-electron` shell element.
The zero-argument ones correspond to the generic-command cases of
`commandHandler` (lines 231-250); the last four to `execRequestAction`
(lines 301-318).  Arguments forwarded from the untyped message payload are
kept opaque (`Option Int`, `none` for `undefined`). -/
inductive ShellOp where
  | openSettings
  | openAbout
  | openLicense
  | openImport
  | openExport
  | openSaved
  | openHistory
  | openDrivePicker
  | openInfoCenter
  | openWebUrl
  | openCookieManager
  | openHostRules
  | openThemesPanel
  | openWorkspace
  | openWebSocket
  | saveOpened (source : Option String)
  | newRequestTab
  | sendCurrentTab
  | updateRequestTab (request : Option Int) (index : Option Int)
deriving DecidableEq, Repr

/-- Replies the responder sends back to the main process via
`e.sender.send`: channel, call identifier, error flag, payload. -/
inductive Sent where
  | currentTabsCount (callId : Option Int) (error : Bool) (cnt : Nat)
  | tabActivated (callId : Option Int) (error : Bool)
  | requestData (callId : Option Int) (error : Bool) (payload : Option Int)
deriving DecidableEq, Repr

/-- The slice of the shell element's state that `app.js` touches:
`workspace.selected`, the value `getTabsCount()` returns, and
`workspace.activeRequests` (indexed by tab, `none` entries and
out-of-range reads give `undefined`). -/
structure AppShell where
  selected : Option Int
  tabsCount : Nat
  activeRequests : List Int
deriving DecidableEq, Repr

/-- `workspace.activeRequests[tabId]`: indexing with `undefined`, a
negative number or an out-of-range index yields `undefined`. -/
def lookupRequest (reqs : List Int) : Option Int → Option Int
  | none => none
  | some n => if n < 0 then none else reqs.get? n.toNat

/-- `sendTabsCount(e, callId)` (lines 259-262). -/
def sendTabsCount (shell : AppShell) (callId : Option Int) : AppShell × List Sent :=
  (shell, [Sent.currentTabsCount callId false shell.tabsCount])

/-- `activateTab(e, callId, tabId)` (lines 271-274): sets
`this.app.workspace.selected = tabId` and acknowledges with
`('tab-activated', callId, false)`, unconditionally. -/
def activateTab (shell : AppShell) (callId tabId : Option Int) : AppShell × List Sent :=
  ({ shell with selected := tabId }, [Sent.tabActivated callId false])

/-- `getRequestData(e, callId, tabId)` (lines 287-290). -/
def getRequestData (shell : AppShell) (callId tabId : Option Int) :
    AppShell × List Sent :=
  (shell, [Sent.requestData callId false (lookupRequest shell.activeRequests tabId)])

/-- The eighteen recognized generic command names (the `case` labels of
`commandHandler`). -/
def commandNames : List String :=
  ["show-settings", "about", "open-license", "import-data", "export-data",
   "open-saved", "open-history", "open-drive", "open-messages",
   "login-external-webservice", "open-cookie-manager", "open-hosts-editor",
   "get-tabs-count", "activate-tab", "get-request-data", "open-themes",
   "open-requests-workspace", "open-web-socket"]

/-- `commandHandler(e, action, ...args)` (lines 228-251): a `switch` on the
command name with no `default` clause.  Returns the updated shell, the
shell operations invoked and the replies sent.  An unmatched name falls
through the `switch`: nothing is invoked and no error is raised. -/
def commandHandler (shell : AppShell) (action : String) (args : List Int) :
    AppShell × List ShellOp × List Sent :=
  let arg0 := args.get? 0
  let arg1 := args.get? 1
  match action with
  | "show-settings" => (shell, [ShellOp.openSettings], [])
  | "about" => (shell, [ShellOp.openAbout], [])
  | "open-license" => (shell, [ShellOp.openLicense], [])
  | "import-data" => (shell, [ShellOp.openImport], [])
  | "export-data" => (shell, [ShellOp.openExport], [])
  | "open-saved" => (shell, [ShellOp.openSaved], [])
  | "open-history" => (shell, [ShellOp.openHistory], [])
  | "open-drive" => (shell, [ShellOp.openDrivePicker], [])
  | "open-messages" => (shell, [ShellOp.openInfoCenter], [])
  | "login-external-webservice" => (shell, [ShellOp.openWebUrl], [])
  | "open-cookie-manager" => (shell, [ShellOp.openCookieManager], [])
  | "open-hosts-editor" => (shell, [ShellOp.openHostRules], [])
  | "get-tabs-count" =>
      let r := sendTabsCount shell arg0
      (r.1, [], r.2)
  | "activate-tab" =>
      let r := activateTab shell arg0 arg1
      (r.1, [], r.2)
  | "get-request-data" =>
      let r := getRequestData shell arg0 arg1
      (r.1, [], r.2)
  | "open-themes" => (shell, [ShellOp.openThemesPanel], [])
  | "open-requests-workspace" => (shell, [ShellOp.openWorkspace], [])
  | "open-web-socket" => (shell, [ShellOp.openWebSocket], [])
  | _ => (shell, [], [])

/-- The five recognized request-action names. -/
def requestActionNames : List String :=
  ["save", "save-as", "new-tab", "send-current", "update-request"]

/-- `execRequestAction(e, action, ...args)` (lines 298-322): a `switch`
whose `default` clause throws `Error('Unrecognized action ' + action)`.
`Except.error` models the thrown error; `Except.ok` carries the shell
operations invoked. -/
def execRequestAction (action : String) (args : List Int) :
    Except String (List ShellOp) :=
  match action with
  | "save" => Except.ok [ShellOp.saveOpened (some "shortcut")]
  | "save-as" => Except.ok [ShellOp.saveOpened none]
  | "new-tab" => Except.ok [ShellOp.newRequestTab]
  | "send-current" => Except.ok [ShellOp.sendCurrentTab]
  | "update-request" => Except.ok [ShellOp.updateRequestTab (args.get? 0) (args.get? 1)]
  | _ => Except.error ("Unrecognized action " ++ action)

/-! ## Theme preview handler (`_themePreviewHandler`, lines 330-332)

The handler body is `this.themeLoader.previewThemes(stylesMap)`.  We model
the instance properties the constructor (lines 21-33) assigns, as presence
flags; `themeLoader` is assigned nowhere in the program, so reading it
yields `undefined` and the method call throws a `TypeError`. -/

/-- Presence of the instance properties of `ArcInit`.  `true` means the
property holds an object; `false` means it is `undefined`. -/
structure ArcInitInstance where
  created : Bool
  contextActions : Bool
  driveBridge : Bool
  oauth2Proxy : Bool
  themeManager : Bool
  prefProxy : Bool
  cookieBridge : Bool
  fsProxy : Bool
  themeLoader : Bool
deriving DecidableEq, Repr

/-- The instance built by the constructor: every proxy field is assigned,
`created` is `false`, and `themeLoader` is never assigned (it stays
`undefined`). -/
def arcInitNew : ArcInitInstance :=
  { created := false, contextActions := true, driveBridge := true
  , oauth2Proxy := true, themeManager := true, prefProxy := true
  , cookieBridge := true, fsProxy := true, themeLoader := false }

/-- A call forwarded to a theme component. -/
inductive ThemeCall where
  | previewThemes (stylesMap : List (String × String))
deriving DecidableEq, Repr

/-- `_themePreviewHandler(e, stylesMap)`: calls
`this.themeLoader.previewThemes(stylesMap)`.  When `themeLoader` is
`undefined` the method access throws a `TypeError`, modelled as `none`;
otherwise the style map is forwarded. -/
def themePreviewHandler (inst : ArcInitInstance)
    (stylesMap : List (String × String)) : Option (List ThemeCall) :=
  if inst.themeLoader then some [ThemeCall.previewThemes stylesMap] else none

/-! ## Helper lemmas -/

/-- `setChain` only touches a chain-stage field. -/
theorem setChain_created (s : SysState) (i : Bool) (c : ChainStage) :
    (setChain s i c).created = s.created := by
  unfold setChain; split <;> rfl

/-- `setChain` does not touch the document. -/
theorem setChain_domShells (s : SysState) (i : Bool) (c : ChainStage) :
    (setChain s i c).domShells = s.domShells := by
  unfold setChain; split <;> rfl

/-- `setChain` does not touch the fatal-error channel. -/
theorem setChain_fatalMsgs (s : SysState) (i : Bool) (c : ChainStage) :
    (setChain s i c).fatalMsgs = s.fatalMsgs := by
  unfold setChain; split <;> rfl

/-! ## Theorems for the claims -/

/-- Claim C1 (code bug): the claim states that every delivery schedule of
two bootstrap events — the second arriving after the first chain completes
or mid-chain — attaches exactly one shell, because the `created` flag is
checked at the point of shell creation.  In the code the flag is checked
only at `_createApp` entry (line 133), not at the append (lines 151-158):
when the second bootstrap arrives while the first chain's components
load is still pending, both chains pass the entry guard and both append
a shell.  This theorem evaluates the code on that schedule: two shells end
up attached (while the schedule in which the second delivery waits for the
first chain to finish attaches exactly one, as the claim expects). -/
theorem claim_C1_mid_chain_bootstrap_attaches_two_shells :
    (run initSys [Ev.deliver false, Ev.deliver true, Ev.settleOk false,
        Ev.settleOk false, Ev.settleOk true, Ev.settleOk true,
        Ev.settleOk false, Ev.settleOk true]).domShells = 2 ∧
    (run initSys [Ev.deliver false, Ev.settleOk false, Ev.settleOk false,
        Ev.settleOk false, Ev.deliver true, Ev.settleOk true]).domShells = 1 := by
  constructor <;> rfl

/-- Claim C2, counterexample: when the application definition import
(stage 3) rejects, the message sent once over the fatal-error channel is
`"Unable to load ARC app"` (line 147), not `"unable to load application"`
as the claim states; the latter string never reaches the channel. -/
theorem claim_C2_counterexample :
    (run initSys [Ev.deliver false, Ev.settleOk false,
        Ev.settleErr false "boom"]).fatalMsgs = ["Unable to load ARC app"] ∧
    "unable to load application" ∉
      (run initSys [Ev.deliver false, Ev.settleOk false,
        Ev.settleErr false "boom"]).fatalMsgs := by
  constructor
  · rfl
  · decide

/-- Claim C2, amended: if loading the core application component
definition (stage 3) fails — whatever the underlying rejection reason —
the chain aborts, no shell is attached, the `created` flag stays unset,
and the failure is translated into the fatal error message
`"Unable to load ARC app"`, sent exactly once over the fatal-error
channel. -/
theorem claim_C2_app_definition_failure_aborts (msg : String) :
    run initSys [Ev.deliver false, Ev.settleOk false, Ev.settleErr false msg] =
      { created := false, domShells := 0
      , fatalMsgs := ["Unable to load ARC app"]
      , chainA := ChainStage.failed, chainB := ChainStage.idle } := rfl

/-- Claim C4: if the components import (stage 2) rejects — whatever the
underlying rejection reason — the fatal-error channel receives exactly the
single message `"Unable to load components import file."`, no shell
element is attached, and the chain ends failed; the stage-local `.catch`
only translates the reason and rethrows, and the one `.catch` at the top
of `initApp` is the sole point that reports to the channel. -/
theorem claim_C4_import_failure_reported_once (msg : String) :
    run initSys [Ev.deliver false, Ev.settleErr false msg] =
      { created := false, domShells := 0
      , fatalMsgs := ["Unable to load components import file."]
      , chainA := ChainStage.failed, chainB := ChainStage.idle } := rfl

/-- Claim C5: dispatching any command name outside the eighteen recognized
generic command names leaves the shell untouched, invokes no shell
operation, sends no reply, and raises no error (the `switch` has no
`default` clause, so the handler returns normally having done nothing). -/
theorem claim_C5_unknown_command_is_noop (shell : AppShell) (action : String)
    (args : List Int) (h : action ∉ commandNames) :
    commandHandler shell action args = (shell, [], []) := by
  unfold commandHandler
  split <;> first
    | rfl
    | simp [commandNames] at h

/-- Witness for claim C5 at the concrete unknown name `"reload-window"`. -/
theorem claim_C5_witness :
    "reload-window" ∉ commandNames ∧
    commandHandler { selected := none, tabsCount := 2, activeRequests := [10, 11] }
      "reload-window" [1, 2] =
      ({ selected := none, tabsCount := 2, activeRequests := [10, 11] }, [], []) :=
  ⟨by decide,
   claim_C5_unknown_command_is_noop
     { selected := none, tabsCount := 2, activeRequests := [10, 11] }
     "reload-window" [1, 2] (by decide)⟩

/-- Claim C6: dispatching any request-action name outside
{save, save-as, new-tab, send-current, update-request} reaches the
`default` clause, which throws `Error('Unrecognized action ' + action)`;
no shell operation is invoked. -/
theorem claim_C6_unrecognized_action_throws (action : String) (args : List Int)
    (h : action ∉ requestActionNames) :
    execRequestAction action args =
      Except.error ("Unrecognized action " ++ action) := by
  unfold execRequestAction
  split <;> first
    | rfl
    | simp [requestActionNames] at h

/-- Witness for claim C6 at the concrete unknown name `"close-tab"`. -/
theorem claim_C6_witness :
    "close-tab" ∉ requestActionNames ∧
    execRequestAction "close-tab" [] =
      Except.error ("Unrecognized action " ++ "close-tab") :=
  ⟨by decide, claim_C6_unrecognized_action_throws "close-tab" [] (by decide)⟩

/-- Claim C7: for every shell state, call identifier and tab identifier —
including an identifier that corresponds to no open tab, since no
validation happens at this layer — the `activate-tab` command sets the
shell's `workspace.selected` to the identifier and replies exactly once on
the `tab-activated` channel with the same call identifier and error flag
`false`. -/
theorem claim_C7_activate_tab_unconditional_ack (shell : AppShell)
    (callId tabId : Int) :
    commandHandler shell "activate-tab" [callId, tabId] =
      ({ shell with selected := some tabId }, [],
        [Sent.tabActivated (some callId) false]) := rfl

/-- Claim C8: for every bootstrap payload whose workspace index field is
absent, the handler stores index `0` both on the bridge
(`this.workspaceIndex`) and in the process-wide stored config
(`window.ArcConfig.initConfig.workspaceIndex`). -/
theorem claim_C8_missing_index_defaults_to_zero (info : InitConfig)
    (h : info.workspaceIndex = none) :
    (stateInfoHandler (some info)).workspaceIndex = some 0 ∧
    (stateInfoHandler (some info)).arcConfigInitConfig.workspaceIndex = some 0 := by
  unfold stateInfoHandler
  simp [idxFalsy, h]

/-- Witness for claim C8 on a concrete payload without a workspace index. -/
theorem claim_C8_witness :
    ({ workspaceIndex := none, workspacePath := some "/tmp/w.json"
     , themeFile := some "dark.css", importFile := some "components.html"
     , appComponents := none } : InitConfig).workspaceIndex = none ∧
    (stateInfoHandler (some
      { workspaceIndex := none, workspacePath := some "/tmp/w.json"
      , themeFile := some "dark.css", importFile := some "components.html"
      , appComponents := none })).workspaceIndex = some 0 ∧
    (stateInfoHandler (some
      { workspaceIndex := none, workspacePath := some "/tmp/w.json"
      , themeFile := some "dark.css", importFile := some "components.html"
      , appComponents := none })).arcConfigInitConfig.workspaceIndex = some 0 :=
  ⟨rfl,
   claim_C8_missing_index_defaults_to_zero
     { workspaceIndex := none, workspacePath := some "/tmp/w.json"
     , themeFile := some "dark.css", importFile := some "components.html"
     , appComponents := none } rfl⟩

/-- Claim C9: the `created` flag is monotone — it starts `false` after the
constructor, every event of the semantics preserves it once `true` (the
only assignment in the program sets it to `true`, right after the shell is
appended), and a bootstrap delivered after the flag is set makes
`_createApp` resolve immediately (the chain skips straight to the theme
load), changing neither the document nor the fatal-error channel. -/
theorem claim_C9_created_flag_monotone :
    initSys.created = false ∧
    (∀ s e, s.created = true → (stepEv s e).created = true) ∧
    (∀ s i, s.created = true → getChain s i = ChainStage.idle →
      stepEv s (Ev.deliver i) = setChain s i ChainStage.themeLoading ∧
      (stepEv s (Ev.deliver i)).domShells = s.domShells ∧
      (stepEv s (Ev.deliver i)).fatalMsgs = s.fatalMsgs) := by
  refine ⟨rfl, ?_, ?_⟩
  · intro s e h
    cases e with
    | deliver i =>
        simp only [stepEv, deliverEv]
        split
        · split <;> simp [setChain_created, h]
        · exact h
    | settleOk i =>
        simp only [stepEv, settleOkEv]
        split <;> simp [setChain_created, h]
    | settleErr i m =>
        simp only [stepEv, settleErrEv]
        split <;> simp [setChain_created, h]
  · intro s i h hidle
    have hstep : stepEv s (Ev.deliver i) = setChain s i ChainStage.themeLoading := by
      simp only [stepEv, deliverEv]
      rw [hidle]
      simp [h]
    exact ⟨hstep, by rw [hstep, setChain_domShells], by rw [hstep, setChain_fatalMsgs]⟩

/-- Witness for claim C9 at a concrete state with the flag set. -/
theorem claim_C9_witness :
    (stepEv { created := true, domShells := 1, fatalMsgs := []
            , chainA := ChainStage.idle, chainB := ChainStage.idle }
      (Ev.settleOk false)).created = true ∧
    stepEv { created := true, domShells := 1, fatalMsgs := []
           , chainA := ChainStage.idle, chainB := ChainStage.idle }
      (Ev.deliver false) =
      setChain { created := true, domShells := 1, fatalMsgs := []
               , chainA := ChainStage.idle, chainB := ChainStage.idle }
        false ChainStage.themeLoading :=
  ⟨claim_C9_created_flag_monotone.2.1
     { created := true, domShells := 1, fatalMsgs := []
     , chainA := ChainStage.idle, chainB := ChainStage.idle }
     (Ev.settleOk false) rfl,
   (claim_C9_created_flag_monotone.2.2
     { created := true, domShells := 1, fatalMsgs := []
     , chainA := ChainStage.idle, chainB := ChainStage.idle }
     false rfl rfl).1⟩

/-- Claim C10: a `window-state-info` message with an absent (or null)
payload does not error — the handler substitutes the empty config, stores
it with workspace index `0` on the bridge and process-wide, and still
triggers the initialization chain. -/
theorem claim_C10_null_payload_tolerated :
    stateInfoHandler none =
      { workspaceIndex := some 0
      , initConfig := { emptyConfig with workspaceIndex := some 0 }
      , arcConfigInitConfig := { emptyConfig with workspaceIndex := some 0 }
      , initAppTriggered := true } := rfl

/-- Claim C3 (code bug): the claim states every `theme-editor-preview`
message is forwarded to the theme component and never raises an error, but
the handler reads `this.themeLoader`, a property the constructor never
assigns (it assigns `this.themeManager`), so for every style map the call
`this.themeLoader.previewThemes(stylesMap)` throws a `TypeError`; nothing
is ever forwarded. -/
theorem claim_C3_theme_preview_always_throws :
    arcInitNew.themeLoader = false ∧
    arcInitNew.themeManager = true ∧
    (∀ stylesMap, themePreviewHandler arcInitNew stylesMap = none) :=
  ⟨rfl, rfl, fun _ => rfl⟩

end ArcInit
